import Mathlib

/-!
Shallow embedding of AIconPack (src/main.py): the OpenAI icon-generation
client `IconGenerator.generate`, the PyInstaller command builder
`PyInstallerPacker.build_cmd` together with `_extend_arg`, the auto-pack
pipeline thread `AIconPackGUI._auto_pack_thread` with its cleanup helpers,
and the template table `IconGenerator.add_template`.

Network calls and subprocesses are modelled by explicit outcome parameters
(one `CallResult` per image-generation request, an exit code plus captured
stdout and stderr for the bundling subprocess); everything else follows the
Python control flow of the source.
-/

/-- Outcome of one `client.images.generate` network call (src/main.py:249):
either it returns normally, raises a transient error
(`APIConnectionError` / `RateLimitError`), or raises any other exception. -/
inductive CallResult
  | ok
  | transient
  | fatal
deriving DecidableEq

/-- Outcome of the inner `for _ in range(batches)` loop of one attempt
(src/main.py:246-257): either every call returned and `items` entries were
appended to `all_data`, or some call raised after `items` entries had already
been appended by the earlier calls of the same attempt (`isTransient` records
whether the exception was `APIConnectionError`/`RateLimitError`). -/
inductive BatchOutcome
  | done (items : Nat)
  | failed (items : Nat) (isTransient : Bool)
deriving DecidableEq

/-- Runs the batch loop from batch index `i` with `remaining` calls left.
A successful call contributes `batchSize` entries to `all_data` (the provider
returns exactly the requested `n = batch_size` image references). -/
def runBatchesFrom (call : Nat → CallResult) (batchSize i remaining : Nat) : BatchOutcome :=
  match remaining with
  | 0 => .done 0
  | r + 1 =>
    match call i with
    | .ok =>
      match runBatchesFrom call batchSize (i + 1) r with
      | .done m => .done (batchSize + m)
      | .failed m t => .failed (batchSize + m) t
    | .transient => .failed 0 true
    | .fatal => .failed 0 false

/-- The whole batch loop of attempt number `k` (attempts are numbered from 0;
attempt `k` is the one executed while `retries = k`). -/
def attemptOutcome (calls : Nat → Nat → CallResult) (batchSize batches k : Nat) : BatchOutcome :=
  runBatchesFrom (calls k) batchSize 0 batches

/-- Result of the `while True` retry loop of `IconGenerator.generate`
(src/main.py:244-269).  `ok total sleeps` means the loop broke out with
`total` entries accumulated in `all_data`, after performing the recorded
backoff sleeps (in seconds).  `unavailable k sleeps` means attempt `k` raised
a transient error with the retry budget exhausted, so
`RuntimeError(f"...{e}") from e` is raised wrapping attempt `k`'s error.
`fatal k sleeps` means attempt `k` raised a non-transient error, which
propagates unchanged at once. -/
inductive GenRun
  | ok (total : Nat) (sleeps : List Nat)
  | unavailable (lastAttempt : Nat) (sleeps : List Nat)
  | fatal (failAttempt : Nat) (sleeps : List Nat)
deriving DecidableEq

/-- The retry loop, with `fuel = max_retries - k`.  On a transient error the
partial `all_data` content (`m` entries) is KEPT — the source never clears
`all_data` before retrying — `retries` becomes `k + 1`, and either the budget
is exceeded (`fuel = 0`, i.e. `retries > max_retries`) or the loop sleeps
`2 ^ (k + 1)` seconds (src/main.py:269) and re-runs the whole batch loop. -/
def genLoop (calls : Nat → Nat → CallResult) (batchSize batches : Nat) :
    Nat → Nat → Nat → List Nat → GenRun
  | k, 0, acc, sleeps =>
    match attemptOutcome calls batchSize batches k with
    | .done m => .ok (acc + m) sleeps
    | .failed _ false => .fatal k sleeps
    | .failed _ true => .unavailable k sleeps
  | k, fuel + 1, acc, sleeps =>
    match attemptOutcome calls batchSize batches k with
    | .done m => .ok (acc + m) sleeps
    | .failed _ false => .fatal k sleeps
    | .failed m true =>
      genLoop calls batchSize batches (k + 1) fuel (acc + m) (sleeps ++ [2 ^ (k + 1)])

/-- The fixed resolution whitelist for DALL·E 3 (src/main.py:43). -/
def DALLE3_SIZES : List String := ["1024x1024", "1024x1792", "1792x1024"]

/-- Batch shape chosen by `generate` (src/main.py:234-239): DALL·E 3 forces
`n = 1` per request and loops `n` times; any other model issues one request
for `min(max(n, 1), 10)` images. -/
def batchParams (model : String) (n : Nat) : Nat × Nat :=
  if model = "dall-e-3" then (1, n) else (min (max n 1) 10, 1)

/-- The closed set of `return_format` values
(`Literal["path", "pil", "bytes", "b64"]`, src/main.py:154). -/
inductive RetFormat
  | path
  | pil
  | bytes
  | b64
deriving DecidableEq

/-- One returned artifact, tagged by the representation it was materialized
into (src/main.py:294-332); the index records its position in `all_data`. -/
inductive Artifact
  | path (idx : Nat)
  | pil (idx : Nat)
  | bytes (idx : Nat)
  | b64 (idx : Nat)
deriving DecidableEq

/-- Materialization of one `all_data` entry in the requested format. -/
def mkArtifact : RetFormat → Nat → Artifact
  | .path, i => .path i
  | .pil, i => .pil i
  | .bytes, i => .bytes i
  | .b64, i => .b64 i

/-- The representation an artifact actually carries. -/
def formatOf : Artifact → RetFormat
  | .path _ => .path
  | .pil _ => .pil
  | .bytes _ => .bytes
  | .b64 _ => .b64

/-- The output loop of `generate` (src/main.py:286-334): one artifact of the
requested format per `all_data` entry, in order. -/
def materialize (fmt : RetFormat) (total : Nat) : List Artifact :=
  (List.range total).map (mkArtifact fmt)

/-- What a `generate` call determines: the size actually sent to the API and
the result of the retry loop. -/
structure GenOutput where
  sizeUsed : String
  run : GenRun
deriving DecidableEq

/-- Embedding of `IconGenerator.generate` (src/main.py:143-334), up to materialization:
the size fallback of line 214 (`if model == "dall-e-3" and size not in
DALLE3_SIZES: size = "1024x1024"` — no exception is ever raised for a bad
size), the batch-shape choice of lines 234-239, and the retry loop of lines
244-269 with `retries = 0` and `all_data = []` initially. -/
def generate (model size : String) (n maxRetries : Nat)
    (calls : Nat → Nat → CallResult) : GenOutput :=
  let size2 := if model = "dall-e-3" ∧ size ∉ DALLE3_SIZES then "1024x1024" else size
  { sizeUsed := size2
    run := genLoop calls (batchParams model n).1 (batchParams model n).2 0 maxRetries 0 [] }

/-- The list `generate` returns when the retry loop succeeds (`None` when it
raises): one artifact per accumulated `all_data` entry. -/
def generateResults (model size : String) (fmt : RetFormat) (n maxRetries : Nat)
    (calls : Nat → Nat → CallResult) : Option (List Artifact) :=
  match (generate model size n maxRetries calls).run with
  | .ok total _ => some (materialize fmt total)
  | _ => none

/-- The backoff sleeps performed by `j` consecutive retries starting after
attempt `k`: `2^(k+1), 2^(k+2), ...`. -/
def sleepSched (k j : Nat) : List Nat :=
  match j with
  | 0 => []
  | j + 1 => 2 ^ (k + 1) :: sleepSched (k + 1) j

/-- Sum of the per-attempt partial item counts of attempts `k, ..., k+j-1`. -/
def itemSum (p : Nat → Nat) (k j : Nat) : Nat :=
  match j with
  | 0 => 0
  | j + 1 => p k + itemSum p (k + 1) j

/-! ## The auto-pack pipeline thread (`AIconPackGUI._auto_pack_thread`) -/

/-- Observable behaviour of one `_auto_pack_thread` run
(src/main.py:1458-1565).  `teardownCount` counts how many times the job's
own isolated environment directory `.aipack_venv` is removed after it has
been created (i.e. invocations of `clean_artifacts`, src/main.py:1385-1398,
whose body also deletes `build/` and the `.spec` file). -/
structure AutoPackOutcome where
  scanInvoked : Bool
  manifest : List String
  venvCreated : Bool
  bundleInterpreter : String
  teardownCount : Nat
  log : Option String
  statusIsFailure : Bool
  uncaughtToCaller : Bool
deriving DecidableEq

/-- Dependencies unconditionally appended to a freshly generated
`requirements.txt` (src/main.py:1505-1507). -/
def autoPackExtraDeps : List String :=
  ["PyQt6>=6.6", "PyQt6-Qt6>=6.6", "PyQt6-sip>=13.6", "pillow>=10.0", "pyinstaller>=6.0"]

/-- Interpreter path inside the freshly created venv (src/main.py:1478,
POSIX spelling; on Windows it is `Scripts/python.exe`). -/
def venvPython : String := ".aipack_venv/bin/python"

/-- Embedding of `AIconPackGUI._auto_pack_thread` (src/main.py:1458-1565) on a run whose
pre-bundling subprocesses (pipreqs, venv creation, pip installs) succeed,
driven by: whether `requirements.txt` already exists in the project root
when resolution starts (`pre_clean_artifacts`, src/main.py:1362-1383, does
not delete it), the packages it holds resp. the packages a pipreqs scan
would produce, the bundling subprocess's exit code and captured streams, and
the "仅保留可执行" (keep only executable) switch.

Control flow mirrored: step 1 sets `using_existing = req_path.exists()` and
runs the pipreqs scan only when it is false (appending
`autoPackExtraDeps` to the generated file); step 2 always creates the venv
and installs into it; step 4 always bundles with the venv interpreter; step 5
calls `clean_artifacts` only `if ok and self.sw_keep.get()`; step 6 writes
`pack_log.txt` as `result.stdout + "\n" + result.stderr` and reports a
success/failure status string.  `except subprocess.CalledProcessError` plus
the non-raising `subprocess.run` in `PyInstallerPacker.pack` mean a nonzero
bundling exit never propagates an exception to the caller.  (The
macOS-only icon conversion of step 3 is irrelevant to the modelled fields
and omitted.) -/
def _auto_pack_thread (reqExists : Bool) (existingReq scannedReq : List String)
    (returncode : Nat) (stdout stderr : String) (swKeep : Bool) : AutoPackOutcome :=
  let using_existing := reqExists
  let manifest := if using_existing then existingReq else scannedReq ++ autoPackExtraDeps
  let ok := returncode == 0
  { scanInvoked := !using_existing
    manifest := manifest
    venvCreated := true
    bundleInterpreter := venvPython
    teardownCount := if ok && swKeep then 1 else 0
    log := some (stdout ++ "\n" ++ stderr)
    statusIsFailure := !ok
    uncaughtToCaller := false }

/-! ## The command builder (`PyInstallerPacker.build_cmd`, `_extend_arg`) -/

/-- The constructor-time options of `PyInstallerPacker` (src/main.py:378-402).
`upx_dir` is `none` when the Python field is `None` (a falsy `upx_dir`
argument is normalized to `None` at construction). -/
structure PackerOpts where
  onefile : Bool
  windowed : Bool
  clean : Bool
  debug : Bool
  upx : Bool
  upx_dir : Option String
  pyinstaller_exe : String
deriving DecidableEq

/-- The keyword arguments of `build_cmd` (src/main.py:407-425), with paths
already stringified.  `none` models Python `None`; note that `build_cmd`
tests every one of these with Python truthiness, so `some ""` and
`some []` behave like `none`. -/
structure CmdArgs where
  name : Option String
  icon : Option String
  version_file : Option String
  add_data : Option (List String)
  add_binary : Option (List String)
  hidden_imports : Option (List String)
  runtime_hooks : Option (List String)
  exclude_modules : Option (List String)
  key : Option String
  dist_dir : Option String
  build_dir : Option String
  workpath : Option String
  spec_path : Option String
  extra_args : Option (List String)
deriving DecidableEq

/-- Python truthiness of an optional string. -/
def pyTruthy : Option String → Bool
  | none => false
  | some s => !(s == "")

/-- Python `if opt: cmd += [flag, str(opt)]`. -/
def optFlag (flag : String) : Option String → List String
  | none => []
  | some s => if s = "" then [] else [flag, s]

/-- The repeated `flag value` segments produced by `_extend_arg`'s loop. -/
def pairsList (flag : String) : List String → List String
  | [] => []
  | v :: t => flag :: v :: pairsList flag t

/-- Embedding of `_extend_arg(cmd, flag, values)` (src/main.py:617-637): appends
`flag, v` for each `v` in `values`; `None` or an empty sequence appends
nothing. -/
def _extend_arg (flag : String) : Option (List String) → List String
  | none => []
  | some vs => pairsList flag vs

/-- A boolean switch: `if b: cmd.append(flag)`. -/
def boolFlag (b : Bool) (flag : String) : List String :=
  if b then [flag] else []

/-- The UPX segment (src/main.py:467-470): `if self.upx:` append
`"--upx-dir"`, then the directory only when `self.upx_dir` is set. -/
def upxPart (p : PackerOpts) : List String :=
  if p.upx then
    "--upx-dir" :: (match p.upx_dir with | some d => [d] | none => [])
  else []

/-- Python `if version_file and platform.system() == "Windows"` (src/main.py:477). -/
def winVersionPart (isWindows : Bool) (vf : Option String) : List String :=
  if isWindows then optFlag "--version-file" vf else []

/-- Embedding of `PyInstallerPacker.build_cmd` (src/main.py:407-503): the full argument
list, in source order. -/
def build_cmd (p : PackerOpts) (isWindows : Bool) (script : String) (a : CmdArgs) : List String :=
  [p.pyinstaller_exe, "-m", "PyInstaller", script]
  ++ boolFlag p.onefile "--onefile"
  ++ boolFlag p.windowed "--noconsole"
  ++ boolFlag p.clean "--clean"
  ++ boolFlag p.debug "--debug"
  ++ upxPart p
  ++ optFlag "--name" a.name
  ++ optFlag "--icon" a.icon
  ++ winVersionPart isWindows a.version_file
  ++ _extend_arg "--add-data" a.add_data
  ++ _extend_arg "--add-binary" a.add_binary
  ++ _extend_arg "--hidden-import" a.hidden_imports
  ++ _extend_arg "--runtime-hook" a.runtime_hooks
  ++ _extend_arg "--exclude-module" a.exclude_modules
  ++ optFlag "--key" a.key
  ++ optFlag "--distpath" a.dist_dir
  ++ optFlag "--workpath" a.build_dir
  ++ optFlag "--workpath" a.workpath
  ++ optFlag "--specpath" a.spec_path
  ++ (a.extra_args.getD [])

/-- Number of occurrences of token `t` in an argument list. -/
def countTok (t : String) : List String → Nat
  | [] => 0
  | a :: l => (if a = t then 1 else 0) + countTok t l

/-- The value strings of an optional single-valued argument. -/
def optVal : Option String → List String
  | none => []
  | some s => [s]

/-- The value strings of an optional multi-valued argument. -/
def listVal : Option (List String) → List String
  | none => []
  | some vs => vs

/-- Every user-supplied string that `build_cmd` can copy into the argument
list as data (as opposed to the fixed flag tokens it emits itself). -/
def userValueStrings (p : PackerOpts) (script : String) (a : CmdArgs) : List String :=
  [p.pyinstaller_exe, script]
  ++ optVal p.upx_dir
  ++ optVal a.name ++ optVal a.icon ++ optVal a.version_file
  ++ listVal a.add_data ++ listVal a.add_binary ++ listVal a.hidden_imports
  ++ listVal a.runtime_hooks ++ listVal a.exclude_modules
  ++ optVal a.key ++ optVal a.dist_dir ++ optVal a.build_dir
  ++ optVal a.workpath ++ optVal a.spec_path
  ++ listVal a.extra_args

/-- The fixed tokens `build_cmd` itself can emit. -/
def reservedTokens : List String :=
  ["-m", "PyInstaller", "--onefile", "--noconsole", "--clean", "--debug",
   "--upx-dir", "--name", "--icon", "--version-file", "--add-data",
   "--add-binary", "--hidden-import", "--runtime-hook", "--exclude-module",
   "--key", "--distpath", "--workpath", "--specpath"]

/-- No user-supplied value string collides with a token the builder emits. -/
def NoCollision (p : PackerOpts) (script : String) (a : CmdArgs) : Prop :=
  ∀ t, t ∈ reservedTokens → t ∉ userValueStrings p script a

instance (p : PackerOpts) (script : String) (a : CmdArgs) :
    Decidable (NoCollision p script a) := by
  unfold NoCollision
  infer_instance

/-- A `CmdArgs` value with every optional argument left at `None`. -/
def emptyArgs : CmdArgs :=
  { name := none, icon := none, version_file := none, add_data := none,
    add_binary := none, hidden_imports := none, runtime_hooks := none,
    exclude_modules := none, key := none, dist_dir := none, build_dir := none,
    workpath := none, spec_path := none, extra_args := none }

/-! ## The template table (`IconGenerator.add_template`) -/

/-- Association-list model of the `self.templates` dict (insertion order,
unique keys, as maintained by a Python dict). -/
def lookupT : List (String × String) → String → Option String
  | [], _ => none
  | (k, v) :: t, name => if k = name then some v else lookupT t name

/-- Python dict assignment `self.templates[name] = template`: update in
place when the key exists, append otherwise. -/
def insertT : List (String × String) → String → String → List (String × String)
  | [], name, tpl => [(name, tpl)]
  | (k, v) :: t, name, tpl =>
    if k = name then (k, tpl) :: t else (k, v) :: insertT t name tpl

/-- Embedding of `IconGenerator.add_template` (src/main.py:116-134).  The first component
is `some name` when `ValueError(f"...")` naming `name` is raised (the dict is
then returned untouched — the raise happens before any mutation); otherwise
the assignment is performed. -/
def add_template (templates : List (String × String)) (name tpl : String)
    (overwrite : Bool) : Option String × List (String × String) :=
  if (lookupT templates name).isSome ∧ overwrite = false then (some name, templates)
  else (none, insertT templates name tpl)

/-- The fixed head of every built command:
`[pyinstaller_exe, "-m", "PyInstaller", str(script_path)]`. -/
def cmdHead (p : PackerOpts) (script : String) : List String :=
  [p.pyinstaller_exe, "-m", "PyInstaller", script]

/-- The boolean-switch block of `build_cmd` (src/main.py:450-470). -/
def switchPart (p : PackerOpts) : List String :=
  boolFlag p.onefile "--onefile" ++ boolFlag p.windowed "--noconsole"
    ++ boolFlag p.clean "--clean" ++ boolFlag p.debug "--debug" ++ upxPart p

/-- The single-valued block before the multi-valued switches
(src/main.py:473-478). -/
def namePart (a : CmdArgs) (isWindows : Bool) : List String :=
  optFlag "--name" a.name ++ optFlag "--icon" a.icon
    ++ winVersionPart isWindows a.version_file

/-- The path-control block after the multi-valued switches
(src/main.py:488-501). -/
def tailPart (a : CmdArgs) : List String :=
  optFlag "--key" a.key ++ optFlag "--distpath" a.dist_dir
    ++ optFlag "--workpath" a.build_dir ++ optFlag "--workpath" a.workpath
    ++ optFlag "--specpath" a.spec_path ++ a.extra_args.getD []

/-! ## Concrete scenarios used by witnesses and counterexamples -/

/-- A call schedule whose first two attempts raise a transient error and
whose later attempts succeed. -/
def callsTwoTransient : Nat → Nat → CallResult :=
  fun k _ => if k < 2 then .transient else .ok

/-- A call schedule for `model="dall-e-3", n=2`: on the first attempt the
first single-image call succeeds and the second raises a transient error;
every later call succeeds. -/
def callsPartialThenOk : Nat → Nat → CallResult :=
  fun k b => if k = 0 ∧ b = 1 then .transient else .ok

/-- A `PyInstallerPacker` with every switch off. -/
def packerOff : PackerOpts :=
  { onefile := false, windowed := false, clean := false, debug := false,
    upx := false, upx_dir := none, pyinstaller_exe := "python" }

/-- A `PyInstallerPacker` with every switch on (no UPX directory given). -/
def packerOn : PackerOpts :=
  { onefile := true, windowed := true, clean := true, debug := true,
    upx := true, upx_dir := none, pyinstaller_exe := "python" }

/-- Arguments whose free-form passthrough list contains the single-file
flag token itself. -/
def argsOnefileInExtra : CmdArgs :=
  { emptyArgs with extra_args := some ["--onefile"] }

/-- Arguments whose hidden-imports list contains the hidden-import flag
token itself. -/
def argsFlagAsImport : CmdArgs :=
  { emptyArgs with hidden_imports := some ["--hidden-import"] }

/-- Arguments supplying both directory overrides plus a passthrough copy of
the workpath flag token. -/
def argsDoubleWorkpathExtra : CmdArgs :=
  { emptyArgs with build_dir := some "b", workpath := some "w",
                   extra_args := some ["--workpath"] }

/-- Arguments supplying both directory overrides (no collisions). -/
def argsDoubleWorkpath : CmdArgs :=
  { emptyArgs with build_dir := some "b", workpath := some "w" }

/-- Arguments exercising the multi-valued options with ordinary values. -/
def argsMultiValues : CmdArgs :=
  { emptyArgs with hidden_imports := some ["pkgA", "pkgB"],
                   add_data := some ["file.txt;data"] }

/-! ## Lemmas about the retry loop -/

lemma sleepSched_eq (j k : Nat) :
    sleepSched k j = (List.range j).map fun i => 2 ^ (k + i + 1) := by
  induction j generalizing k with
  | zero => simp [sleepSched]
  | succ j ih =>
    rw [sleepSched, ih (k + 1), List.range_succ_eq_map, List.map_cons, List.map_map]
    refine congrArg₂ List.cons (by norm_num) ?_
    apply List.map_congr_left
    intro i _
    simp only [Function.comp_apply]
    congr 1
    omega

lemma sleepSched_zero_eq (j : Nat) :
    sleepSched 0 j = (List.range j).map fun i => 2 ^ (i + 1) := by
  rw [sleepSched_eq]
  apply List.map_congr_left
  intro i _
  congr 1
  omega

lemma genLoop_ok_after (calls : Nat → Nat → CallResult) (bs bt : Nat) (p : Nat → Nat) :
    ∀ (j k fuel acc : Nat) (sleeps : List Nat), j ≤ fuel →
      (∀ i, i < j → attemptOutcome calls bs bt (k + i) = .failed (p (k + i)) true) →
      ∀ d, attemptOutcome calls bs bt (k + j) = .done d →
      genLoop calls bs bt k fuel acc sleeps
        = .ok (acc + itemSum p k j + d) (sleeps ++ sleepSched k j) := by
  intro j
  induction j with
  | zero =>
    intro k fuel acc sleeps _ _ d hdone
    rw [Nat.add_zero] at hdone
    cases fuel <;> simp [genLoop, hdone, itemSum, sleepSched]
  | succ j ih =>
    intro k fuel acc sleeps hle hfail d hdone
    have h0 : attemptOutcome calls bs bt k = .failed (p k) true := by
      have := hfail 0 (by omega)
      simpa using this
    cases fuel with
    | zero => omega
    | succ f =>
      have step : genLoop calls bs bt k (f + 1) acc sleeps
          = genLoop calls bs bt (k + 1) f (acc + p k) (sleeps ++ [2 ^ (k + 1)]) := by
        simp [genLoop, h0]
      rw [step]
      have hfail2 : ∀ i, i < j →
          attemptOutcome calls bs bt (k + 1 + i) = .failed (p (k + 1 + i)) true := by
        intro i hi
        have := hfail (i + 1) (by omega)
        have e : k + (i + 1) = k + 1 + i := by omega
        rwa [e] at this
      have hdone2 : attemptOutcome calls bs bt (k + 1 + j) = .done d := by
        have e : k + (j + 1) = k + 1 + j := by omega
        rwa [e] at hdone
      rw [ih (k + 1) f (acc + p k) (sleeps ++ [2 ^ (k + 1)]) (by omega) hfail2 d hdone2]
      simp [itemSum, sleepSched, Nat.add_assoc]

lemma genLoop_exhaust (calls : Nat → Nat → CallResult) (bs bt : Nat) (p : Nat → Nat) :
    ∀ (fuel k acc : Nat) (sleeps : List Nat),
      (∀ i, i ≤ fuel → attemptOutcome calls bs bt (k + i) = .failed (p (k + i)) true) →
      genLoop calls bs bt k fuel acc sleeps
        = .unavailable (k + fuel) (sleeps ++ sleepSched k fuel) := by
  intro fuel
  induction fuel with
  | zero =>
    intro k acc sleeps hfail
    have h0 : attemptOutcome calls bs bt k = .failed (p k) true := by
      have := hfail 0 (by omega)
      simpa using this
    simp [genLoop, h0, sleepSched]
  | succ f ih =>
    intro k acc sleeps hfail
    have h0 : attemptOutcome calls bs bt k = .failed (p k) true := by
      have := hfail 0 (by omega)
      simpa using this
    have step : genLoop calls bs bt k (f + 1) acc sleeps
        = genLoop calls bs bt (k + 1) f (acc + p k) (sleeps ++ [2 ^ (k + 1)]) := by
      simp [genLoop, h0]
    rw [step]
    have hfail2 : ∀ i, i ≤ f →
        attemptOutcome calls bs bt (k + 1 + i) = .failed (p (k + 1 + i)) true := by
      intro i hi
      have := hfail (i + 1) (by omega)
      have e : k + (i + 1) = k + 1 + i := by omega
      rwa [e] at this
    rw [ih (k + 1) (acc + p k) (sleeps ++ [2 ^ (k + 1)]) hfail2]
    have e2 : k + 1 + f = k + (f + 1) := by omega
    rw [e2]
    simp [sleepSched]

lemma genLoop_fatal_after (calls : Nat → Nat → CallResult) (bs bt : Nat) (p : Nat → Nat) :
    ∀ (j k fuel acc : Nat) (sleeps : List Nat) (mj : Nat), j ≤ fuel →
      (∀ i, i < j → attemptOutcome calls bs bt (k + i) = .failed (p (k + i)) true) →
      attemptOutcome calls bs bt (k + j) = .failed mj false →
      genLoop calls bs bt k fuel acc sleeps = .fatal (k + j) (sleeps ++ sleepSched k j) := by
  intro j
  induction j with
  | zero =>
    intro k fuel acc sleeps mj _ _ hfat
    rw [Nat.add_zero] at hfat
    cases fuel <;> simp [genLoop, hfat, sleepSched]
  | succ j ih =>
    intro k fuel acc sleeps mj hle hfail hfat
    have h0 : attemptOutcome calls bs bt k = .failed (p k) true := by
      have := hfail 0 (by omega)
      simpa using this
    cases fuel with
    | zero => omega
    | succ f =>
      have step : genLoop calls bs bt k (f + 1) acc sleeps
          = genLoop calls bs bt (k + 1) f (acc + p k) (sleeps ++ [2 ^ (k + 1)]) := by
        simp [genLoop, h0]
      rw [step]
      have hfail2 : ∀ i, i < j →
          attemptOutcome calls bs bt (k + 1 + i) = .failed (p (k + 1 + i)) true := by
        intro i hi
        have := hfail (i + 1) (by omega)
        have e : k + (i + 1) = k + 1 + i := by omega
        rwa [e] at this
      have hfat2 : attemptOutcome calls bs bt (k + 1 + j) = .failed mj false := by
        have e : k + (j + 1) = k + 1 + j := by omega
        rwa [e] at hfat
      rw [ih (k + 1) f (acc + p k) (sleeps ++ [2 ^ (k + 1)]) mj (by omega) hfail2 hfat2]
      have e2 : k + 1 + j = k + (j + 1) := by omega
      rw [e2]
      simp [sleepSched]

lemma generate_run_eq (model size : String) (n mr : Nat) (calls : Nat → Nat → CallResult) :
    (generate model size n mr calls).run
      = genLoop calls (batchParams model n).1 (batchParams model n).2 0 mr 0 [] := rfl

lemma runBatchesFrom_all_ok (call : Nat → CallResult) (bs : Nat) :
    ∀ (r i : Nat), (∀ b, b < r → call (i + b) = .ok) →
      runBatchesFrom call bs i r = .done (bs * r) := by
  intro r
  induction r with
  | zero => intro i _; simp [runBatchesFrom]
  | succ r ih =>
    intro i h
    have h0 : call i = .ok := by
      have := h 0 (by omega)
      simpa using this
    have hr : runBatchesFrom call bs (i + 1) r = .done (bs * r) := by
      apply ih
      intro b hb
      have := h (b + 1) (by omega)
      have e : i + (b + 1) = i + 1 + b := by omega
      rwa [e] at this
    have e2 : bs * (r + 1) = bs + bs * r := by ring
    simp [runBatchesFrom, h0, hr, e2]

lemma runBatchesFrom_transient_at (call : Nat → CallResult) (bs : Nat) :
    ∀ (j i r : Nat), j < r → (∀ b, b < j → call (i + b) = .ok) →
      call (i + j) = .transient →
      runBatchesFrom call bs i r = .failed (bs * j) true := by
  intro j
  induction j with
  | zero =>
    intro i r hr _ ht
    rw [Nat.add_zero] at ht
    cases r with
    | zero => omega
    | succ r => simp [runBatchesFrom, ht]
  | succ j ih =>
    intro i r hr h ht
    cases r with
    | zero => omega
    | succ r =>
      have h0 : call i = .ok := by
        have := h 0 (by omega)
        simpa using this
      have hrec : runBatchesFrom call bs (i + 1) r = .failed (bs * j) true := by
        apply ih (i + 1) r (by omega)
        · intro b hb
          have := h (b + 1) (by omega)
          have e : i + (b + 1) = i + 1 + b := by omega
          rwa [e] at this
        · have e : i + (j + 1) = i + 1 + j := by omega
          rwa [e] at ht
      have e2 : bs * (j + 1) = bs + bs * j := by ring
      simp [runBatchesFrom, h0, hrec, e2]

/-! ## Claim C1 -/

/-- C1: In `IconGenerator.generate`, if each of the first `K` attempts fails
with a transient error (`APIConnectionError`/`RateLimitError`) with
`K ≤ max_retries` and attempt `K+1` succeeds, the retry loop succeeds after
sleeping `2^1, ..., 2^K` seconds (`2^attempt` before each retry); if every
attempt through the budget (`max_retries + 1` attempts) fails transiently,
the loop raises `RuntimeError` wrapping the last attempt's error; a
non-transient error propagates immediately on first occurrence, with no
further retry.  Attempts are numbered from 0 here, so "attempt K+1" of the
claim is index `K`, and `p i` is the partial item count attempt `i` left in
`all_data`. -/
theorem C1_retry_policy (model size : String) (n m : Nat)
    (calls : Nat → Nat → CallResult) (p : Nat → Nat) :
    (∀ K, K ≤ m →
      (∀ i, i < K →
        attemptOutcome calls (batchParams model n).1 (batchParams model n).2 i
          = .failed (p i) true) →
      ∀ d, attemptOutcome calls (batchParams model n).1 (batchParams model n).2 K = .done d →
      (generate model size n m calls).run
        = GenRun.ok (itemSum p 0 K + d) ((List.range K).map fun i => 2 ^ (i + 1)))
    ∧ ((∀ i, i ≤ m →
        attemptOutcome calls (batchParams model n).1 (batchParams model n).2 i
          = .failed (p i) true) →
      (generate model size n m calls).run
        = GenRun.unavailable m ((List.range m).map fun i => 2 ^ (i + 1)))
    ∧ (∀ K mk, K ≤ m →
      (∀ i, i < K →
        attemptOutcome calls (batchParams model n).1 (batchParams model n).2 i
          = .failed (p i) true) →
      attemptOutcome calls (batchParams model n).1 (batchParams model n).2 K
          = .failed mk false →
      (generate model size n m calls).run
        = GenRun.fatal K ((List.range K).map fun i => 2 ^ (i + 1))) := by
  refine ⟨?_, ?_, ?_⟩
  · intro K hK hfail d hdone
    have hf : ∀ i, i < K →
        attemptOutcome calls (batchParams model n).1 (batchParams model n).2 (0 + i)
          = .failed (p (0 + i)) true := by
      intro i hi
      simpa [Nat.zero_add] using hfail i hi
    have hd : attemptOutcome calls (batchParams model n).1 (batchParams model n).2 (0 + K)
        = .done d := by
      simpa [Nat.zero_add] using hdone
    have h := genLoop_ok_after calls (batchParams model n).1 (batchParams model n).2 p
      K 0 m 0 [] hK hf d hd
    rw [generate_run_eq, h, sleepSched_zero_eq]
    simp
  · intro hfail
    have hf : ∀ i, i ≤ m →
        attemptOutcome calls (batchParams model n).1 (batchParams model n).2 (0 + i)
          = .failed (p (0 + i)) true := by
      intro i hi
      simpa [Nat.zero_add] using hfail i hi
    have h := genLoop_exhaust calls (batchParams model n).1 (batchParams model n).2 p
      m 0 0 [] hf
    rw [generate_run_eq, h, sleepSched_zero_eq]
    simp
  · intro K mk hK hfail hfat
    have hf : ∀ i, i < K →
        attemptOutcome calls (batchParams model n).1 (batchParams model n).2 (0 + i)
          = .failed (p (0 + i)) true := by
      intro i hi
      simpa [Nat.zero_add] using hfail i hi
    have hft : attemptOutcome calls (batchParams model n).1 (batchParams model n).2 (0 + K)
        = .failed mk false := by
      simpa [Nat.zero_add] using hfat
    have h := genLoop_fatal_after calls (batchParams model n).1 (batchParams model n).2 p
      K 0 m 0 [] mk hK hf hft
    rw [generate_run_eq, h, sleepSched_zero_eq]
    simp

/-- Witness for C1: two transient attempts then success, with
`max_retries = 3`, yields a successful run after sleeping 2 then 4 sec. -/
theorem C1_retry_policy_witness :
    (generate "gpt-image-1" "1024x1024" 1 3 callsTwoTransient).run = GenRun.ok 1 [2, 4] := by
  have h := (C1_retry_policy "gpt-image-1" "1024x1024" 1 3 callsTwoTransient (fun _ => 0)).1
    2 (by omega) (fun i hi => by interval_cases i <;> decide) 1 (by decide)
  exact h.trans (by decide)

/-! ## Claim C4 -/

/-- C4 (failing-input evaluation): with `model="dall-e-3"`, `n=2`,
`max_retries=3`, the first attempt's first single-image call succeeding, its
second call raising a transient error, and the retried attempt fully
succeeding, `generate` returns a list of length 3, not the requested
(clamped) count 2 — the entry fetched before the failure is never cleared
from `all_data`, so the retry duplicates it.  With no mid-batch failure the
same request returns exactly 2 artifacts. -/
theorem C4_retry_duplicates_results :
    (generateResults "dall-e-3" "1024x1024" RetFormat.path 2 3 callsPartialThenOk).map
        List.length = some 3
    ∧ (generateResults "dall-e-3" "1024x1024" RetFormat.path 2 3 callsPartialThenOk).map
        List.length ≠ some 2
    ∧ (generateResults "dall-e-3" "1024x1024" RetFormat.path 2 3 (fun _ _ => .ok)).map
        List.length = some 2 := by
  exact ⟨by decide, by decide, by decide⟩

/-! ## Claim C5 -/

/-- C5: for `model="dall-e-3"` and a requested size outside
`DALLE3_SIZES`, `generate` raises no validation error (the embedding of its
size handling is total — src/main.py:212-215 has no raise branch) and the
effective size used for the remote call is the default `"1024x1024"`;
generation then proceeds through the normal retry loop. -/
theorem C5_size_fallback (model size : String) (n mr : Nat)
    (calls : Nat → Nat → CallResult)
    (hm : model = "dall-e-3") (hs : size ∉ DALLE3_SIZES) :
    (generate model size n mr calls).sizeUsed = "1024x1024"
    ∧ (generate model size n mr calls).run
        = genLoop calls (batchParams model n).1 (batchParams model n).2 0 mr 0 [] := by
  subst hm
  exact ⟨by simp [generate, hs], rfl⟩

/-- Witness for C5 at the unsupported size `"640x480"`. -/
theorem C5_size_fallback_witness :
    (generate "dall-e-3" "640x480" 1 3 callsTwoTransient).sizeUsed = "1024x1024" :=
  (C5_size_fallback "dall-e-3" "640x480" 1 3 callsTwoTransient rfl (by decide)).1

/-! ## Claim C2 -/

/-- C2 counterexample: a job whose bundling step exits nonzero (exit code 1)
performs NO environment teardown — `clean_artifacts` runs only under
`if ok and self.sw_keep.get()` (src/main.py:1547), so `.aipack_venv` is not
removed in that job even with the keep switch on — although the failure
status is reported as the claim says. -/
theorem C2_teardown_counterexample :
    (_auto_pack_thread true ["requests"] [] 1 "out" "err" true).teardownCount = 0
    ∧ (_auto_pack_thread true ["requests"] [] 1 "out" "err" true).statusIsFailure = true :=
  ⟨rfl, rfl⟩

/-- C2 amended: on every run reaching the bundling step, the log artifact
`pack_log.txt` is written as stdout + newline + stderr (hence contains the
captured stderr text), a failure status (not an uncaught exception) is
reported exactly when the exit code is nonzero — but environment teardown is
invoked within the job only when bundling succeeded AND the
keep-only-executable switch is set (zero times otherwise; the stale
environment directory is only removed by the next job's pre-clean). -/
theorem C2_log_and_teardown (reqE : Bool) (ex sc : List String) (rc : Nat)
    (out err : String) (keep : Bool) :
    (_auto_pack_thread reqE ex sc rc out err keep).log = some (out ++ "\n" ++ err)
    ∧ (∃ pre, (_auto_pack_thread reqE ex sc rc out err keep).log = some (pre ++ err))
    ∧ (_auto_pack_thread reqE ex sc rc out err keep).statusIsFailure = !(rc == 0)
    ∧ (_auto_pack_thread reqE ex sc rc out err keep).uncaughtToCaller = false
    ∧ (_auto_pack_thread reqE ex sc rc out err keep).teardownCount
        = (if (rc == 0) && keep then 1 else 0) :=
  ⟨rfl, ⟨out ++ "\n", rfl⟩, rfl, rfl, rfl⟩

/-! ## Claim C3 -/

/-- C3 counterexample: a job whose dependency resolution yields the empty
set (no existing manifest, empty scan result) still creates the isolated
venv (src/main.py:1512, unconditional) and bundles with the venv
interpreter, not the currently-running one. -/
theorem C3_provision_counterexample :
    (_auto_pack_thread false [] [] 0 "" "" false).venvCreated = true
    ∧ (_auto_pack_thread false [] [] 0 "" "" false).bundleInterpreter = venvPython :=
  ⟨rfl, rfl⟩

/-- C3 amended: `_auto_pack_thread` provisions the isolated environment and
bundles with its interpreter on every run, regardless of the resolved
dependency set; moreover a generated manifest always has the pinned extra
dependencies appended, so the installed set is never empty. -/
theorem C3_always_provisions (reqE : Bool) (ex sc : List String) (rc : Nat)
    (out err : String) (keep : Bool) :
    (_auto_pack_thread reqE ex sc rc out err keep).venvCreated = true
    ∧ (_auto_pack_thread reqE ex sc rc out err keep).bundleInterpreter = venvPython
    ∧ (_auto_pack_thread false ex sc rc out err keep).manifest = sc ++ autoPackExtraDeps :=
  ⟨rfl, rfl, rfl⟩

/-! ## Claim C6 -/

/-- C6: when `requirements.txt` already exists in the project root the
pipeline skips the dependency scan (no pipreqs subprocess; the fallback
static scanner `_detect_dependencies` is never called anywhere) and reuses
the existing manifest as-is; the scan runs exactly when no manifest
exists. -/
theorem C6_manifest_short_circuit (ex sc : List String) (rc : Nat)
    (out err : String) (keep : Bool) :
    ((_auto_pack_thread true ex sc rc out err keep).scanInvoked = false
      ∧ (_auto_pack_thread true ex sc rc out err keep).manifest = ex)
    ∧ (_auto_pack_thread false ex sc rc out err keep).scanInvoked = true :=
  ⟨⟨rfl, rfl⟩, rfl⟩

/-! ## Claim C10 -/

lemma lookupT_insertT_self (ts : List (String × String)) (name tpl : String) :
    lookupT (insertT ts name tpl) name = some tpl := by
  induction ts with
  | nil => simp [insertT, lookupT]
  | cons hd t ih =>
    obtain ⟨k, v⟩ := hd
    by_cases hk : k = name
    · simp [insertT, hk, lookupT]
    · simp [insertT, hk, lookupT, ih]

lemma lookupT_insertT_ne (ts : List (String × String)) (name tpl k2 : String)
    (h : k2 ≠ name) :
    lookupT (insertT ts name tpl) k2 = lookupT ts k2 := by
  induction ts with
  | nil => simp [insertT, lookupT, Ne.symm h]
  | cons hd t ih =>
    obtain ⟨k, v⟩ := hd
    by_cases hk : k = name
    · subst hk
      simp [insertT, lookupT, Ne.symm h]
    · have he : insertT ((k, v) :: t) name tpl = (k, v) :: insertT t name tpl := by
        simp [insertT, hk]
      rw [he]
      by_cases hk2 : k = k2
      · simp [lookupT, hk2]
      · simp [lookupT, hk2, ih]

/-- C10: `add_template` with `overwrite=False` raises `ValueError` when the
name is already present, leaving the template dict untouched; when the name
is absent or `overwrite=True`, it maps exactly that name to the given
template and leaves every other entry unchanged. -/
theorem C10_add_template_spec (ts : List (String × String)) (name tpl : String)
    (overwrite : Bool) :
    ((lookupT ts name).isSome = true → overwrite = false →
      add_template ts name tpl overwrite = (some name, ts))
    ∧ ((lookupT ts name = none ∨ overwrite = true) →
      (add_template ts name tpl overwrite).1 = none
      ∧ lookupT (add_template ts name tpl overwrite).2 name = some tpl
      ∧ ∀ k2, k2 ≠ name →
          lookupT (add_template ts name tpl overwrite).2 k2 = lookupT ts k2) := by
  constructor
  · intro h1 h2
    unfold add_template
    rw [if_pos ⟨h1, h2⟩]
  · intro h
    have hcond : ¬((lookupT ts name).isSome = true ∧ overwrite = false) := by
      rcases h with h | h
      · simp [h]
      · simp [h]
    have heq : add_template ts name tpl overwrite = (none, insertT ts name tpl) := by
      unfold add_template
      rw [if_neg hcond]
    rw [heq]
    exact ⟨rfl, lookupT_insertT_self ts name tpl,
      fun k2 hk2 => lookupT_insertT_ne ts name tpl k2 hk2⟩

/-- Witness for C10: adding an existing name without overwrite errors and
leaves the dict unchanged; with overwrite it updates just that entry. -/
theorem C10_add_template_witness :
    add_template [("flat", "x")] "flat" "y" false = (some "flat", [("flat", "x")])
    ∧ lookupT (add_template [("flat", "x"), ("3d", "z")] "flat" "y" true).2 "3d" = some "z" := by
  constructor
  · exact (C10_add_template_spec [("flat", "x")] "flat" "y" false).1 rfl rfl
  · exact ((C10_add_template_spec [("flat", "x"), ("3d", "z")] "flat" "y" true).2
      (Or.inr rfl)).2.2 "3d" (by decide)

/-! ## Lemmas about the command builder -/

lemma countTok_append (t : String) (l1 l2 : List String) :
    countTok t (l1 ++ l2) = countTok t l1 + countTok t l2 := by
  induction l1 with
  | nil => simp [countTok]
  | cons a l ih => simp [countTok, ih, Nat.add_assoc]

lemma countTok_zero_not_mem (t : String) (l : List String) (h : countTok t l = 0) :
    t ∉ l := by
  induction l with
  | nil => simp
  | cons a l ih =>
    simp only [countTok] at h
    by_cases ha : a = t
    · simp [ha] at h
    · have h2 : countTok t l = 0 := by omega
      simp [List.mem_cons, ih h2]
      exact fun e => ha e.symm

lemma countTok_eq_zero (t : String) (l : List String) (h : t ∉ l) : countTok t l = 0 := by
  induction l with
  | nil => rfl
  | cons a l ih =>
    simp only [List.mem_cons, not_or] at h
    have ha : ¬(a = t) := fun e => h.1 e.symm
    simp [countTok, ha, ih h.2]

lemma optVal_ne (t : String) (o : Option String) (h : t ∉ optVal o) : o ≠ some t := by
  cases o with
  | none => simp
  | some s2 =>
    simp [optVal] at h
    intro e
    exact h (Option.some.inj e).symm

lemma listVal_eq_getD (o : Option (List String)) : listVal o = o.getD [] := by
  cases o <;> rfl

lemma extendArg_eq (f : String) (o : Option (List String)) :
    _extend_arg f o = pairsList f (listVal o) := by
  cases o <;> rfl

/-- Unpacks `t ∉ userValueStrings p s a` into the per-field facts. -/
lemma uvs_parts (p : PackerOpts) (s : String) (a : CmdArgs) (t : String)
    (hne : t ∉ userValueStrings p s a) :
    p.pyinstaller_exe ≠ t ∧ s ≠ t ∧ p.upx_dir ≠ some t
    ∧ a.name ≠ some t ∧ a.icon ≠ some t ∧ a.version_file ≠ some t
    ∧ t ∉ listVal a.add_data ∧ t ∉ listVal a.add_binary ∧ t ∉ listVal a.hidden_imports
    ∧ t ∉ listVal a.runtime_hooks ∧ t ∉ listVal a.exclude_modules
    ∧ a.key ≠ some t ∧ a.dist_dir ≠ some t ∧ a.build_dir ≠ some t
    ∧ a.workpath ≠ some t ∧ a.spec_path ≠ some t
    ∧ t ∉ listVal a.extra_args := by
  simp only [userValueStrings, List.mem_append, List.mem_cons, List.not_mem_nil,
    or_false, not_or] at hne
  obtain ⟨⟨⟨⟨⟨⟨⟨⟨⟨⟨⟨⟨⟨⟨⟨⟨h1, h2⟩, h3⟩, h4⟩, h5⟩, h6⟩, h7⟩, h8⟩, h9⟩, h10⟩,
    h11⟩, h12⟩, h13⟩, h14⟩, h15⟩, h16⟩, h17⟩ := hne
  exact ⟨fun e => h1 e.symm, fun e => h2 e.symm, optVal_ne t _ h3,
    optVal_ne t _ h4, optVal_ne t _ h5, optVal_ne t _ h6,
    h7, h8, h9, h10, h11,
    optVal_ne t _ h12, optVal_ne t _ h13, optVal_ne t _ h14,
    optVal_ne t _ h15, optVal_ne t _ h16, h17⟩

lemma countTok_head (t e s2 : String) (h1 : e ≠ t) (h2 : t ≠ "-m")
    (h3 : t ≠ "PyInstaller") (h4 : s2 ≠ t) :
    countTok t [e, "-m", "PyInstaller", s2] = 0 := by
  simp [countTok, h1, h4, Ne.symm h2, Ne.symm h3]

lemma countTok_boolFlag (t f : String) (b : Bool) :
    countTok t (boolFlag b f) = if b = true then (if f = t then 1 else 0) else 0 := by
  cases b <;> simp [boolFlag, countTok]

lemma countTok_optFlag (t f : String) (o : Option String) (hv : o ≠ some t) :
    countTok t (optFlag f o) = if pyTruthy o = true ∧ f = t then 1 else 0 := by
  cases o with
  | none => simp [optFlag, pyTruthy, countTok]
  | some s2 =>
    have hs : ¬(s2 = t) := fun e => hv (by rw [e])
    by_cases he : s2 = ""
    · simp [optFlag, pyTruthy, he, countTok]
    · by_cases hf : f = t <;> simp [optFlag, pyTruthy, he, countTok, hs, hf]

lemma countTok_upxPart (t : String) (p : PackerOpts) (hv : p.upx_dir ≠ some t) :
    countTok t (upxPart p) = if p.upx = true ∧ "--upx-dir" = t then 1 else 0 := by
  rcases p with ⟨o1, w1, c1, d1, u1, ud, pe⟩
  simp only at hv
  cases u1 with
  | false => simp [upxPart, countTok]
  | true =>
    cases ud with
    | none => simp [upxPart, countTok]
    | some d =>
      have hd : ¬(d = t) := fun e => hv (by rw [e])
      by_cases hf : ("--upx-dir" : String) = t <;> simp [upxPart, countTok, hd, hf]

lemma countTok_winVersion (t : String) (w : Bool) (vf : Option String) (hv : vf ≠ some t) :
    countTok t (winVersionPart w vf)
      = if w = true then (if pyTruthy vf = true ∧ "--version-file" = t then 1 else 0) else 0 := by
  cases w with
  | false => simp [winVersionPart, countTok]
  | true => simpa [winVersionPart] using countTok_optFlag t "--version-file" vf hv

lemma countTok_pairsList (t f : String) (vs : List String) (hv : t ∉ vs) :
    countTok t (pairsList f vs) = if f = t then vs.length else 0 := by
  induction vs with
  | nil => simp [pairsList, countTok]
  | cons v tl ih =>
    simp only [List.mem_cons, not_or] at hv
    have hvt : ¬(v = t) := fun e => hv.1 e.symm
    by_cases hf : f = t
    · subst hf
      simp [pairsList, countTok, hvt, ih hv.2, Nat.add_comm]
    · simp [pairsList, countTok, hvt, ih hv.2, hf]

lemma countTok_extendArg (t f : String) (o : Option (List String))
    (hv : t ∉ listVal o) :
    countTok t (_extend_arg f o) = if f = t then (listVal o).length else 0 := by
  rw [extendArg_eq]
  exact countTok_pairsList t f (listVal o) hv

/-- The occurrence count of any non-colliding token in the built command, as
a function of the options. -/
lemma build_cmd_count (p : PackerOpts) (w : Bool) (s : String) (a : CmdArgs) (t : String)
    (hne : t ∉ userValueStrings p s a)
    (hm : t ≠ "-m") (hpi : t ≠ "PyInstaller") :
    countTok t (build_cmd p w s a) =
      (if p.onefile = true then (if "--onefile" = t then 1 else 0) else 0)
      + (if p.windowed = true then (if "--noconsole" = t then 1 else 0) else 0)
      + (if p.clean = true then (if "--clean" = t then 1 else 0) else 0)
      + (if p.debug = true then (if "--debug" = t then 1 else 0) else 0)
      + (if p.upx = true ∧ "--upx-dir" = t then 1 else 0)
      + (if pyTruthy a.name = true ∧ "--name" = t then 1 else 0)
      + (if pyTruthy a.icon = true ∧ "--icon" = t then 1 else 0)
      + (if w = true then (if pyTruthy a.version_file = true ∧ "--version-file" = t then 1 else 0) else 0)
      + (if "--add-data" = t then (listVal a.add_data).length else 0)
      + (if "--add-binary" = t then (listVal a.add_binary).length else 0)
      + (if "--hidden-import" = t then (listVal a.hidden_imports).length else 0)
      + (if "--runtime-hook" = t then (listVal a.runtime_hooks).length else 0)
      + (if "--exclude-module" = t then (listVal a.exclude_modules).length else 0)
      + (if pyTruthy a.key = true ∧ "--key" = t then 1 else 0)
      + (if pyTruthy a.dist_dir = true ∧ "--distpath" = t then 1 else 0)
      + (if pyTruthy a.build_dir = true ∧ "--workpath" = t then 1 else 0)
      + (if pyTruthy a.workpath = true ∧ "--workpath" = t then 1 else 0)
      + (if pyTruthy a.spec_path = true ∧ "--specpath" = t then 1 else 0) := by
  obtain ⟨hexe, hs, hupx, hname, hicon, hvf, hdata, hbin, hhid, hrt, hexc,
    hkey, hdist, hbld, hwp, hspec, hextra⟩ := uvs_parts p s a t hne
  rw [build_cmd]
  repeat rw [countTok_append]
  rw [countTok_head t _ s hexe hm hpi hs,
    countTok_boolFlag t "--onefile" p.onefile,
    countTok_boolFlag t "--noconsole" p.windowed,
    countTok_boolFlag t "--clean" p.clean,
    countTok_boolFlag t "--debug" p.debug,
    countTok_upxPart t p hupx,
    countTok_optFlag t "--name" a.name hname,
    countTok_optFlag t "--icon" a.icon hicon,
    countTok_winVersion t w a.version_file hvf,
    countTok_extendArg t "--add-data" a.add_data hdata,
    countTok_extendArg t "--add-binary" a.add_binary hbin,
    countTok_extendArg t "--hidden-import" a.hidden_imports hhid,
    countTok_extendArg t "--runtime-hook" a.runtime_hooks hrt,
    countTok_extendArg t "--exclude-module" a.exclude_modules hexc,
    countTok_optFlag t "--key" a.key hkey,
    countTok_optFlag t "--distpath" a.dist_dir hdist,
    countTok_optFlag t "--workpath" a.build_dir hbld,
    countTok_optFlag t "--workpath" a.workpath hwp,
    countTok_optFlag t "--specpath" a.spec_path hspec]
  rw [← listVal_eq_getD, countTok_eq_zero t (listVal a.extra_args) hextra]
  omega

/-- If a decomposition of the command accounts for the token's whole
occurrence count, the flanking pieces are free of the token. -/
lemma decomp_not_mem (t : String) (l1 mid l2 full : List String)
    (heq : full = l1 ++ mid ++ l2)
    (htot : countTok t full = countTok t mid) :
    t ∉ l1 ∧ t ∉ l2 := by
  have h := congrArg (countTok t) heq
  rw [countTok_append, countTok_append] at h
  constructor
  · exact countTok_zero_not_mem t l1 (by omega)
  · exact countTok_zero_not_mem t l2 (by omega)

/-! ## Claim C7 -/

/-- C7 counterexample: with the single-file switch OFF but the passthrough
`extra_args` containing the string `"--onefile"`, the built argument list
does contain the token `"--onefile"` — so over all `PackagingOptions` the
claimed absence does not hold. -/
theorem C7_bool_flag_collision :
    packerOff.onefile = false
    ∧ "--onefile" ∈ build_cmd packerOff false "app.py" argsOnefileInExtra :=
  ⟨rfl, by decide⟩

/-- C7 amended: provided no user-supplied value string equals a reserved
flag token, each boolean switch set to false leaves its flag token absent
from the built list and set to true makes it occur exactly once (for the UPX
switch the emitted token is `--upx-dir`). -/
theorem C7_bool_switches (p : PackerOpts) (w : Bool) (s : String) (a : CmdArgs)
    (h : NoCollision p s a) :
    countTok "--onefile" (build_cmd p w s a) = (if p.onefile = true then 1 else 0)
    ∧ countTok "--noconsole" (build_cmd p w s a) = (if p.windowed = true then 1 else 0)
    ∧ countTok "--clean" (build_cmd p w s a) = (if p.clean = true then 1 else 0)
    ∧ countTok "--debug" (build_cmd p w s a) = (if p.debug = true then 1 else 0)
    ∧ countTok "--upx-dir" (build_cmd p w s a) = (if p.upx = true then 1 else 0) := by
  refine ⟨?_, ?_, ?_, ?_, ?_⟩ <;>
    · rw [build_cmd_count p w s a _ (h _ (by decide)) (by decide) (by decide)]
      simp

/-- Witness for C7: with all switches on resp. off and no other arguments,
the flags appear once resp. not at all. -/
theorem C7_bool_switches_witness :
    countTok "--onefile" (build_cmd packerOn false "app.py" emptyArgs) = 1
    ∧ countTok "--debug" (build_cmd packerOff false "app.py" emptyArgs) = 0 := by
  constructor
  · have h := (C7_bool_switches packerOn false "app.py" emptyArgs (by decide)).1
    simpa [packerOn] using h
  · have h := (C7_bool_switches packerOff false "app.py" emptyArgs (by decide)).2.2.2.1
    simpa [packerOff] using h

/-! ## Claim C8 -/

/-- C8 counterexample: a hidden-imports list of length 1 whose single value
is the flag token itself yields 2 occurrences of `"--hidden-import"`, not
exactly `N = 1`. -/
theorem C8_flag_value_collision :
    (listVal argsFlagAsImport.hidden_imports).length = 1
    ∧ countTok "--hidden-import" (build_cmd packerOff false "app.py" argsFlagAsImport) = 2 :=
  ⟨by decide, by decide⟩

/-- C8 amended: provided no user-supplied value string equals a reserved
flag token, each multi-valued option list of length N contributes exactly N
occurrences of its flag, and the built list decomposes as
`l1 ++ pairsList flag values ++ l2` with the flag absent from `l1` and `l2`
— i.e. every occurrence is immediately followed by its value, the values in
input order. -/
theorem C8_multi_valued (p : PackerOpts) (w : Bool) (s : String) (a : CmdArgs)
    (h : NoCollision p s a) :
    (countTok "--add-data" (build_cmd p w s a) = (listVal a.add_data).length
      ∧ ∃ l1 l2, build_cmd p w s a
          = l1 ++ pairsList "--add-data" (listVal a.add_data) ++ l2
          ∧ "--add-data" ∉ l1 ∧ "--add-data" ∉ l2)
    ∧ (countTok "--add-binary" (build_cmd p w s a) = (listVal a.add_binary).length
      ∧ ∃ l1 l2, build_cmd p w s a
          = l1 ++ pairsList "--add-binary" (listVal a.add_binary) ++ l2
          ∧ "--add-binary" ∉ l1 ∧ "--add-binary" ∉ l2)
    ∧ (countTok "--hidden-import" (build_cmd p w s a) = (listVal a.hidden_imports).length
      ∧ ∃ l1 l2, build_cmd p w s a
          = l1 ++ pairsList "--hidden-import" (listVal a.hidden_imports) ++ l2
          ∧ "--hidden-import" ∉ l1 ∧ "--hidden-import" ∉ l2)
    ∧ (countTok "--runtime-hook" (build_cmd p w s a) = (listVal a.runtime_hooks).length
      ∧ ∃ l1 l2, build_cmd p w s a
          = l1 ++ pairsList "--runtime-hook" (listVal a.runtime_hooks) ++ l2
          ∧ "--runtime-hook" ∉ l1 ∧ "--runtime-hook" ∉ l2)
    ∧ (countTok "--exclude-module" (build_cmd p w s a) = (listVal a.exclude_modules).length
      ∧ ∃ l1 l2, build_cmd p w s a
          = l1 ++ pairsList "--exclude-module" (listVal a.exclude_modules) ++ l2
          ∧ "--exclude-module" ∉ l1 ∧ "--exclude-module" ∉ l2) := by
  refine ⟨⟨?_, ?_⟩, ⟨?_, ?_⟩, ⟨?_, ?_⟩, ⟨?_, ?_⟩, ⟨?_, ?_⟩⟩
  case _ =>
    rw [build_cmd_count p w s a _ (h _ (by decide)) (by decide) (by decide)]
    simp
  case _ =>
    have hv : "--add-data" ∉ listVal a.add_data :=
      (uvs_parts p s a _ (h _ (by decide))).2.2.2.2.2.2.1
    have hcnt : countTok "--add-data" (build_cmd p w s a)
        = (listVal a.add_data).length := by
      rw [build_cmd_count p w s a _ (h _ (by decide)) (by decide) (by decide)]
      simp
    have hmid : countTok "--add-data"
        (pairsList "--add-data" (listVal a.add_data)) = (listVal a.add_data).length := by
      rw [countTok_pairsList _ _ _ hv]
      simp
    have heq : build_cmd p w s a
        = (cmdHead p s ++ switchPart p ++ namePart a w)
          ++ pairsList "--add-data" (listVal a.add_data)
          ++ (_extend_arg "--add-binary" a.add_binary
              ++ _extend_arg "--hidden-import" a.hidden_imports
              ++ _extend_arg "--runtime-hook" a.runtime_hooks
              ++ _extend_arg "--exclude-module" a.exclude_modules
              ++ tailPart a) := by
      simp only [build_cmd, cmdHead, switchPart, namePart, tailPart, extendArg_eq,
        List.append_assoc]
    obtain ⟨hn1, hn2⟩ := decomp_not_mem _ _ _ _ _ heq (hcnt.trans hmid.symm)
    exact ⟨_, _, heq, hn1, hn2⟩
  case _ =>
    rw [build_cmd_count p w s a _ (h _ (by decide)) (by decide) (by decide)]
    simp
  case _ =>
    have hv : "--add-binary" ∉ listVal a.add_binary :=
      (uvs_parts p s a _ (h _ (by decide))).2.2.2.2.2.2.2.1
    have hcnt : countTok "--add-binary" (build_cmd p w s a)
        = (listVal a.add_binary).length := by
      rw [build_cmd_count p w s a _ (h _ (by decide)) (by decide) (by decide)]
      simp
    have hmid : countTok "--add-binary"
        (pairsList "--add-binary" (listVal a.add_binary)) = (listVal a.add_binary).length := by
      rw [countTok_pairsList _ _ _ hv]
      simp
    have heq : build_cmd p w s a
        = (cmdHead p s ++ switchPart p ++ namePart a w
            ++ _extend_arg "--add-data" a.add_data)
          ++ pairsList "--add-binary" (listVal a.add_binary)
          ++ (_extend_arg "--hidden-import" a.hidden_imports
              ++ _extend_arg "--runtime-hook" a.runtime_hooks
              ++ _extend_arg "--exclude-module" a.exclude_modules
              ++ tailPart a) := by
      simp only [build_cmd, cmdHead, switchPart, namePart, tailPart, extendArg_eq,
        List.append_assoc]
    obtain ⟨hn1, hn2⟩ := decomp_not_mem _ _ _ _ _ heq (hcnt.trans hmid.symm)
    exact ⟨_, _, heq, hn1, hn2⟩
  case _ =>
    rw [build_cmd_count p w s a _ (h _ (by decide)) (by decide) (by decide)]
    simp
  case _ =>
    have hv : "--hidden-import" ∉ listVal a.hidden_imports :=
      (uvs_parts p s a _ (h _ (by decide))).2.2.2.2.2.2.2.2.1
    have hcnt : countTok "--hidden-import" (build_cmd p w s a)
        = (listVal a.hidden_imports).length := by
      rw [build_cmd_count p w s a _ (h _ (by decide)) (by decide) (by decide)]
      simp
    have hmid : countTok "--hidden-import"
        (pairsList "--hidden-import" (listVal a.hidden_imports))
        = (listVal a.hidden_imports).length := by
      rw [countTok_pairsList _ _ _ hv]
      simp
    have heq : build_cmd p w s a
        = (cmdHead p s ++ switchPart p ++ namePart a w
            ++ _extend_arg "--add-data" a.add_data
            ++ _extend_arg "--add-binary" a.add_binary)
          ++ pairsList "--hidden-import" (listVal a.hidden_imports)
          ++ (_extend_arg "--runtime-hook" a.runtime_hooks
              ++ _extend_arg "--exclude-module" a.exclude_modules
              ++ tailPart a) := by
      simp only [build_cmd, cmdHead, switchPart, namePart, tailPart, extendArg_eq,
        List.append_assoc]
    obtain ⟨hn1, hn2⟩ := decomp_not_mem _ _ _ _ _ heq (hcnt.trans hmid.symm)
    exact ⟨_, _, heq, hn1, hn2⟩
  case _ =>
    rw [build_cmd_count p w s a _ (h _ (by decide)) (by decide) (by decide)]
    simp
  case _ =>
    have hv : "--runtime-hook" ∉ listVal a.runtime_hooks :=
      (uvs_parts p s a _ (h _ (by decide))).2.2.2.2.2.2.2.2.2.1
    have hcnt : countTok "--runtime-hook" (build_cmd p w s a)
        = (listVal a.runtime_hooks).length := by
      rw [build_cmd_count p w s a _ (h _ (by decide)) (by decide) (by decide)]
      simp
    have hmid : countTok "--runtime-hook"
        (pairsList "--runtime-hook" (listVal a.runtime_hooks))
        = (listVal a.runtime_hooks).length := by
      rw [countTok_pairsList _ _ _ hv]
      simp
    have heq : build_cmd p w s a
        = (cmdHead p s ++ switchPart p ++ namePart a w
            ++ _extend_arg "--add-data" a.add_data
            ++ _extend_arg "--add-binary" a.add_binary
            ++ _extend_arg "--hidden-import" a.hidden_imports)
          ++ pairsList "--runtime-hook" (listVal a.runtime_hooks)
          ++ (_extend_arg "--exclude-module" a.exclude_modules ++ tailPart a) := by
      simp only [build_cmd, cmdHead, switchPart, namePart, tailPart, extendArg_eq,
        List.append_assoc]
    obtain ⟨hn1, hn2⟩ := decomp_not_mem _ _ _ _ _ heq (hcnt.trans hmid.symm)
    exact ⟨_, _, heq, hn1, hn2⟩
  case _ =>
    rw [build_cmd_count p w s a _ (h _ (by decide)) (by decide) (by decide)]
    simp
  case _ =>
    have hv : "--exclude-module" ∉ listVal a.exclude_modules :=
      (uvs_parts p s a _ (h _ (by decide))).2.2.2.2.2.2.2.2.2.2.1
    have hcnt : countTok "--exclude-module" (build_cmd p w s a)
        = (listVal a.exclude_modules).length := by
      rw [build_cmd_count p w s a _ (h _ (by decide)) (by decide) (by decide)]
      simp
    have hmid : countTok "--exclude-module"
        (pairsList "--exclude-module" (listVal a.exclude_modules))
        = (listVal a.exclude_modules).length := by
      rw [countTok_pairsList _ _ _ hv]
      simp
    have heq : build_cmd p w s a
        = (cmdHead p s ++ switchPart p ++ namePart a w
            ++ _extend_arg "--add-data" a.add_data
            ++ _extend_arg "--add-binary" a.add_binary
            ++ _extend_arg "--hidden-import" a.hidden_imports
            ++ _extend_arg "--runtime-hook" a.runtime_hooks)
          ++ pairsList "--exclude-module" (listVal a.exclude_modules)
          ++ tailPart a := by
      simp only [build_cmd, cmdHead, switchPart, namePart, tailPart, extendArg_eq,
        List.append_assoc]
    obtain ⟨hn1, hn2⟩ := decomp_not_mem _ _ _ _ _ heq (hcnt.trans hmid.symm)
    exact ⟨_, _, heq, hn1, hn2⟩

/-- Witness for C8: two hidden imports give the flag twice, one add-data
entry gives its flag once. -/
theorem C8_multi_valued_witness :
    countTok "--hidden-import" (build_cmd packerOff false "app.py" argsMultiValues) = 2
    ∧ countTok "--add-data" (build_cmd packerOff false "app.py" argsMultiValues) = 1 := by
  have h := C8_multi_valued packerOff false "app.py" argsMultiValues (by decide)
  constructor
  · have h2 := h.2.2.1.1
    simpa [argsMultiValues, emptyArgs, listVal] using h2
  · have h2 := h.1.1
    simpa [argsMultiValues, emptyArgs, listVal] using h2

/-! ## Claim C9 -/

/-- C9 counterexample: with both directory overrides supplied AND a
passthrough `extra_args` copy of the token, `"--workpath"` occurs three
times, not twice — so over all inputs the claimed "exactly twice" does not
hold. -/
theorem C9_workpath_collision :
    countTok "--workpath" (build_cmd packerOff false "app.py" argsDoubleWorkpathExtra) = 3 :=
  by decide

/-- C9 amended: provided no user-supplied value string equals a reserved
flag token, supplying both truthy `build_dir` and `workpath` makes
`"--workpath"` occur exactly twice, not deduplicated, with the
`build_dir`-derived pair immediately before the `workpath`-derived pair, so
the last one appended (`workpath`) wins under PyInstaller's last-flag-wins
reading. -/
theorem C9_workpath_last_wins (p : PackerOpts) (w : Bool) (s : String) (a : CmdArgs)
    (bd wp : String) (hbd : a.build_dir = some bd) (hwp : a.workpath = some wp)
    (hbd2 : bd ≠ "") (hwp2 : wp ≠ "") (h : NoCollision p s a) :
    countTok "--workpath" (build_cmd p w s a) = 2
    ∧ ∃ l1 l2, build_cmd p w s a
        = l1 ++ ["--workpath", bd, "--workpath", wp] ++ l2
        ∧ "--workpath" ∉ l1 ∧ "--workpath" ∉ l2 := by
  have hparts := uvs_parts p s a _ (h "--workpath" (by decide))
  have hbd3 : ¬(bd = "--workpath") := by
    intro e
    exact hparts.2.2.2.2.2.2.2.2.2.2.2.2.2.1 (by rw [hbd, e])
  have hwp3 : ¬(wp = "--workpath") := by
    intro e
    exact hparts.2.2.2.2.2.2.2.2.2.2.2.2.2.2.1 (by rw [hwp, e])
  have hcnt : countTok "--workpath" (build_cmd p w s a) = 2 := by
    rw [build_cmd_count p w s a _ (h _ (by decide)) (by decide) (by decide)]
    simp [pyTruthy, hbd, hwp, hbd2, hwp2]
  refine ⟨hcnt, ?_⟩
  have hmid : countTok "--workpath" ["--workpath", bd, "--workpath", wp] = 2 := by
    simp [countTok, hbd3, hwp3]
  have heq : build_cmd p w s a
      = (cmdHead p s ++ switchPart p ++ namePart a w
          ++ _extend_arg "--add-data" a.add_data
          ++ _extend_arg "--add-binary" a.add_binary
          ++ _extend_arg "--hidden-import" a.hidden_imports
          ++ _extend_arg "--runtime-hook" a.runtime_hooks
          ++ _extend_arg "--exclude-module" a.exclude_modules
          ++ optFlag "--key" a.key ++ optFlag "--distpath" a.dist_dir)
        ++ ["--workpath", bd, "--workpath", wp]
        ++ (optFlag "--specpath" a.spec_path ++ a.extra_args.getD []) := by
    simp only [build_cmd, cmdHead, switchPart, namePart, hbd, hwp, optFlag,
      if_neg hbd2, if_neg hwp2, List.append_assoc, List.cons_append,
      List.nil_append]
  obtain ⟨hn1, hn2⟩ := decomp_not_mem _ _ _ _ _ heq (hcnt.trans hmid.symm)
  exact ⟨_, _, heq, hn1, hn2⟩

/-- Witness for C9: both overrides supplied with ordinary values. -/
theorem C9_workpath_last_wins_witness :
    countTok "--workpath" (build_cmd packerOff false "app.py" argsDoubleWorkpath) = 2 :=
  (C9_workpath_last_wins packerOff false "app.py" argsDoubleWorkpath "b" "w"
    rfl rfl (by decide) (by decide) (by decide)).1
